import Mathlib

/-!
Verification of the scrape_engine repository's queueing-and-execution core.

Shallow embedding of:
- `retryWithBackoff` and its delay computation (src/src/utils/logger.js, retry section);
- `classifyError`, `getRetryDelay` and `processJob` (src/src/queue/worker.js);
- `stopWorker`'s idempotent-shutdown guard (src/src/queue/worker.js);
- `queueTask`'s per-task session cleanup (src/src/core/cluster.js, hardened version);
- `autoScroll`'s DOM-count content-loading loop (src/src/scraper/auto-scroll.js);
- `enqueueScrapeJob` (src/src/queue/producer.js);
- `scrapeProducts`'s page loop (src/unnamed/part_008).

JavaScript numbers are modelled as `Nat` where the code only ever produces
non-negative integers; `Math.random()`-derived draws are modelled as an
arbitrary natural seed fed through the same floor arithmetic the code uses.
-/

namespace ScrapeEngine

/-! ### Configuration constants (src/src/config/index.js defaults) -/

/-- Value of `config.retry.attempts` in src/src/config/index.js. -/
def configRetryAttempts : Nat := 3

/-- Value of `config.retry.backoff.delay` in src/src/config/index.js. -/
def configBackoffDelay : Nat := 5000

/-- Value of the `config.scraper.maxPagesPerJob` default in src/src/config/index.js. -/
def configMaxPagesPerJob : Nat := 5

/-! ### Delay utilities (src/src/utils/delay.js) -/

/-- Models `randomInt(min, max)` from src/src/utils/delay.js:
`Math.floor(Math.random() * (max - min + 1)) + min`.
The random draw is modelled by an arbitrary seed `r`; the result is the
value the JS expression takes when `Math.random() * (max - min + 1)`
floors to `r % (max - min + 1)`, which ranges over exactly `[min, max]`. -/
def randomInt (r min max : Nat) : Nat :=
  min + r % (max - min + 1)

/-! ### Retry policy (retry section of src/src/utils/logger.js) -/

/-- Options destructured by `retryWithBackoff` (defaults from the source).
The source destructures exactly these six fields; in particular there is
no `isRetryable` field. -/
structure RetryOptions where
  maxAttempts : Nat := 3
  initialDelay : Nat := 1000
  maxDelay : Nat := 30000
  factor : Nat := 2
  jitter : Bool := true

/-- Computes `Math.min(initialDelay * Math.pow(factor, attempt - 1), maxDelay)`:
the base delay computed after failing attempt `attempt` (1-indexed),
i.e. the delay before attempt `attempt + 1`. -/
def baseDelay (o : RetryOptions) (attempt : Nat) : Nat :=
  min (o.initialDelay * o.factor ^ (attempt - 1)) o.maxDelay

/-- Upper bound of the jitter draw: `randomInt(0, delay * 0.3)` draws an
integer in `[0, delay * 0.3]`; `delay * 3 / 10` is that bound under exact
(floored) arithmetic. -/
def jitterCap (delay : Nat) : Nat :=
  3 * delay / 10

/-- The full delay the source sleeps for after failing attempt `attempt`:
base delay, plus `randomInt(0, delay * 0.3)` when `jitter` is set. -/
def computedDelay (o : RetryOptions) (attempt r : Nat) : Nat :=
  let d := baseDelay o attempt
  if o.jitter then d + randomInt r 0 (jitterCap d) else d

/-- Trace of one `retryWithBackoff` run: the final result, the number of
attempts performed, and the delays slept between attempts. -/
structure RetryTrace (E A : Type) where
  result : Except E A
  attemptsPerformed : Nat
  delays : List Nat

/-- The `for (attempt = 1; attempt <= maxAttempts; attempt++)` loop of
`retryWithBackoff`. `op k` is the outcome of the k-th call of `fn`
(1-indexed); `draws k` the random seed of the jitter draw after attempt
`k`. `remaining` counts the attempts still allowed after the current one
(`maxAttempts - attempt`), so the recursion is structural. -/
def retryLoop (op : Nat → Except E A) (draws : Nat → Nat) (o : RetryOptions) :
    Nat → Nat → RetryTrace E A
  | attempt, 0 =>
    match op attempt with
    | Except.ok a => ⟨Except.ok a, attempt, []⟩
    | Except.error e => ⟨Except.error e, attempt, []⟩
  | attempt, remaining + 1 =>
    match op attempt with
    | Except.ok a => ⟨Except.ok a, attempt, []⟩
    | Except.error _ =>
      let d := computedDelay o attempt (draws attempt)
      let t := retryLoop op draws o (attempt + 1) remaining
      ⟨t.result, t.attemptsPerformed, d :: t.delays⟩

/-- Models `retryWithBackoff(fn, options)` for `maxAttempts ≥ 1` (the source run
with `maxAttempts = 0` never calls `fn` and throws `undefined`, a case no
caller exercises). -/
def retryWithBackoff (op : Nat → Except E A) (draws : Nat → Nat)
    (o : RetryOptions) : RetryTrace E A :=
  retryLoop op draws o 1 (o.maxAttempts - 1)

/-! ### Error classification and retry delays (src/src/queue/worker.js) -/

/-- The `ErrorTypes` taxonomy of src/src/queue/worker.js. -/
inductive ErrorType where
  | timeout
  | network
  | banned
  | captcha
  | rateLimited
  | selector
  | unknown
deriving DecidableEq, Repr

/-- Whether `needle` occurs at the start of `hay` (character lists). -/
def beginsWith : List Char → List Char → Bool
  | [], _ => true
  | _ :: _, [] => false
  | a :: as, b :: bs => a = b && beginsWith as bs

/-- JS `hay.includes(needle)` on character lists. -/
def hasSub (needle : List Char) : List Char → Bool
  | [] => beginsWith needle []
  | c :: t => beginsWith needle (c :: t) || hasSub needle t

/-- Models `message.includes(needle)` on the lowercased message. -/
def includesSub (m : List Char) (needle : String) : Bool :=
  hasSub needle.toList m

/-- Models `classifyError(error)` from src/src/queue/worker.js: lowercases the
message and tests substrings in the source's order. -/
def classifyError (message : String) : ErrorType :=
  let m := message.toList.map Char.toLower
  if includesSub m "timeout" || includesSub m "navigation timeout" then
    ErrorType.timeout
  else if includesSub m "net::" || includesSub m "econnrefused" ||
      includesSub m "econnreset" then
    ErrorType.network
  else if includesSub m "403" || includesSub m "blocked" ||
      includesSub m "banned" then
    ErrorType.banned
  else if includesSub m "captcha" || includesSub m "challenge" then
    ErrorType.captcha
  else if includesSub m "429" || includesSub m "too many requests" ||
      includesSub m "rate limit" then
    ErrorType.rateLimited
  else if includesSub m "selector" || includesSub m "element not found" then
    ErrorType.selector
  else
    ErrorType.unknown

/-- Models `getRetryDelay(errorType, attemptsMade)` from src/src/queue/worker.js,
with `baseDelay = config.retry.backoff.delay` passed explicitly. -/
def getRetryDelay (errorType : ErrorType) (attemptsMade : Nat)
    (base : Nat := configBackoffDelay) : Nat :=
  match errorType with
  | ErrorType.rateLimited => min (base * 3 ^ attemptsMade) 300000
  | ErrorType.banned => min (base * 4 ^ attemptsMade) 600000
  | ErrorType.timeout => min (base * 2 ^ attemptsMade) 60000
  | ErrorType.network => min (base * 2 ^ attemptsMade) 60000
  | ErrorType.captcha => min (base * 3 ^ attemptsMade) 180000
  | _ => base * 2 ^ attemptsMade

/-! ### processJob (src/src/queue/worker.js) -/

/-- The `lastError` record `processJob` attaches to the job's data. -/
structure LastError where
  etype : ErrorType
  message : String
  attempt : Nat
  timestamp : Nat
deriving DecidableEq, Repr

/-- The slice of job data `processJob` reads and writes. -/
structure JobDataRec where
  keyword : Option String
  url : Option String
  maxPages : Nat
  lastError : Option LastError
deriving DecidableEq, Repr

/-- How a `processJob` invocation terminates, as seen by the queue:
a return value, a plain (hence retryable) thrown error, or a thrown
`UnrecoverableError` which BullMQ treats as a terminal failure. -/
inductive ProcessOutcome (R : Type) where
  | completed (result : R)
  | failedRetryable (message : String) (data : JobDataRec)
  | failedUnrecoverable (message : String) (data : JobDataRec)
deriving DecidableEq, Repr

/-- Models `processJob(job)` from src/src/queue/worker.js. `attemptsMade` is
BullMQ's count of already-failed attempts (0 on the first attempt);
`taskResult` is the outcome of `queueTask(...)`, with thrown errors
carrying their message; `now` stamps the `lastError` record. On failure
the job data is updated with the classified error, then an
`UnrecoverableError` is thrown when the error is BANNED and
`attemptsMade >= 1`; otherwise the original error is rethrown. The
configured `maxAttempts` is only logged, never consulted. -/
def processJob (R : Type) (shuttingDown : Bool) (attemptsMade : Nat)
    (data : JobDataRec) (taskResult : Except String R) (now : Nat) :
    ProcessOutcome R :=
  if shuttingDown then
    ProcessOutcome.failedRetryable "Worker is shutting down, job will be retried" data
  else
    match taskResult with
    | Except.ok r => ProcessOutcome.completed r
    | Except.error msg =>
      let errorType := classifyError msg
      let data' : JobDataRec :=
        { data with lastError := some ⟨errorType, msg, attemptsMade + 1, now⟩ }
      if errorType = ErrorType.banned ∧ 1 ≤ attemptsMade then
        ProcessOutcome.failedUnrecoverable msg data'
      else
        ProcessOutcome.failedRetryable msg data'

/-! ### stopWorker (src/src/queue/worker.js) -/

/-- The module-level mutable state `stopWorker` reads and writes.
`shutdownPromise` holds the identifier of the in-flight shutdown promise
(JS: the promise object itself); `seqStarted` is a ghost counter of how
many shutdown sequences have ever begun, used to state idempotence. -/
structure WorkerModuleState where
  workerRunning : Bool
  isShuttingDown : Bool
  shutdownPromise : Option Nat
  seqStarted : Nat
deriving DecidableEq, Repr

/-- Models `stopWorker(timeout)` up to its first suspension point. JS is
single-threaded, so two "concurrent" calls execute this synchronous
part one after the other. The guard `if (shutdownPromise) return
shutdownPromise;` returns the in-flight promise unchanged; otherwise,
if a worker is running, a fresh shutdown sequence starts: the new
promise (identified by the fresh `seqStarted` value) is stored in
`shutdownPromise` and returned. -/
def stopWorker (st : WorkerModuleState) : Option Nat × WorkerModuleState :=
  match st.shutdownPromise with
  | some p => (some p, st)
  | none =>
    if st.workerRunning = false then
      (none, st)
    else
      let pid := st.seqStarted
      (some pid,
        { workerRunning := st.workerRunning
          isShuttingDown := true
          shutdownPromise := some pid
          seqStarted := st.seqStarted + 1 })

/-- The `finally` block at the end of the shutdown sequence: clears
`isShuttingDown` and `shutdownPromise`; the worker instance was already
released inside the sequence. Runs only when the single in-flight
sequence completes. -/
def completeShutdown (st : WorkerModuleState) : WorkerModuleState :=
  { workerRunning := false
    isShuttingDown := false
    shutdownPromise := none
    seqStarted := st.seqStarted }

/-! ### queueTask session cleanup (src/src/core/cluster.js, hardened) -/

/-- The transient state of one pooled browser session that the cleanup
code touches: cookies and the two storages. -/
structure SessionState where
  cookies : List (String × String)
  localStorage : List (String × String)
  sessionStorage : List (String × String)
deriving DecidableEq, Repr

/-- The `finally` block of `queueTask`'s task wrapper:
`Network.clearBrowserCookies`, then `localStorage.clear()` and
`sessionStorage.clear()`. -/
def clearSessionState (_s : SessionState) : SessionState :=
  { cookies := [], localStorage := [], sessionStorage := [] }

/-- The task wrapper `queueTask` passes to `cluster.execute`. A task is
modelled as a function from the session state to its outcome (a value or
a thrown error) together with the session state it leaves behind. The
wrapper's `try` runs the task, the `catch` logs and rethrows the same
error, and the `finally` clears cookies and storage in both cases before
the result or error propagates to the caller. The `activePageCount`
increment/decrement pair of the wrapper is modelled by `activePages`
passing through unchanged. -/
def queueTask (task : SessionState → Except E A × SessionState)
    (s : SessionState) (activePages : Nat) :
    Except E A × SessionState × Nat :=
  let r := task s
  match r.1 with
  | Except.ok a => (Except.ok a, clearSessionState r.2, activePages)
  | Except.error e => (Except.error e, clearSessionState r.2, activePages)

/-! ### autoScroll (src/src/scraper/auto-scroll.js)

The embedding covers the `itemSelector`-present path (the design of
record). Scroll gestures, pacing delays and reading pauses touch no
state the loop reads, and the height metrics are only logged when an
`itemSelector` is given, so both are elided. The page is modelled by
the answers it gives to the loop's queries: `counts k` is the item
count returned by the k-th DOM-count query (the initial baseline query
is query 0), and `atBottom k` the k-th `isAtPageBottom` answer.
`waitForNewElements` resolves with the observed count and
`increased = count > previousCount`. -/

/-- Answers a simulated page gives to the scroll loop's queries. -/
structure PageSim where
  counts : Nat → Nat
  atBottom : Nat → Bool

/-- The options `autoScroll` destructures that affect control flow,
with the source's defaults (`maxScrolls` from config, default 50). -/
structure ScrollOpts where
  maxScrolls : Nat := 50
  minItems : Nat := 0
  maxStallCount : Nat := 5
deriving DecidableEq, Repr

/-- Why the loop stopped; mirrors the reasons the source logs at each
exit (`max_stall_reached`, `minimum items reached`, and falling out of
the `while (scrollCount < maxScrolls)` condition). -/
inductive ScrollExitReason where
  | maxStall
  | minItemsReached
  | maxScrollsReached
deriving DecidableEq, Repr

/-- The loop's mutable locals, plus the two query cursors into `PageSim`. -/
structure ScrollState where
  scrollCount : Nat
  stallCount : Nat
  previousItemCount : Nat
  cIdx : Nat
  bIdx : Nat
deriving DecidableEq, Repr

/-- The stats object `autoScroll` returns (count-related fields; the
height fields are not modelled). `initialItemCount` is, as in the
source, read from `previousItemCount` after the loop — i.e. from the
mutated variable, not the true initial count. `reason` records the
logged exit reason. -/
structure ScrollStats where
  scrollCount : Nat
  initialItemCount : Nat
  finalItemCount : Nat
  stallsEncountered : Nat
  reason : ScrollExitReason
deriving DecidableEq, Repr

/-- Builds the returned stats from the state at exit; `finalItemCount`
is one more fresh DOM-count query. -/
def finishStats (page : PageSim) (s : ScrollState)
    (reason : ScrollExitReason) : ScrollStats :=
  { scrollCount := s.scrollCount
    initialItemCount := s.previousItemCount
    finalItemCount := page.counts s.cIdx
    stallsEncountered := s.stallCount
    reason := reason }

/-- Tail of the no-new-content branch: the `stallCount >= maxStallCount`
break, then the `minItems` break, else continue with the updated locals.
`stall2` and `current` are the stall counter and `currentItemCount`
after the optional escalated attempt; `cIdx2` the next count-query
cursor. -/
def stallTail (page : PageSim) (o : ScrollOpts) (s : ScrollState)
    (stall2 current cIdx2 : Nat) : ScrollStats ⊕ ScrollState :=
  if o.maxStallCount ≤ stall2 then
    Sum.inl (finishStats page
      { s with stallCount := stall2, cIdx := cIdx2 } ScrollExitReason.maxStall)
  else if 0 < o.minItems ∧ o.minItems ≤ current then
    Sum.inl (finishStats page
      { s with stallCount := stall2, cIdx := cIdx2 } ScrollExitReason.minItemsReached)
  else
    Sum.inr
      { scrollCount := s.scrollCount + 1
        stallCount := stall2
        previousItemCount := current
        cIdx := cIdx2
        bIdx := s.bIdx + 1 }

/-- One iteration of the `while (scrollCount < maxScrolls)` body:
observe the item count, check `isAtPageBottom`, and either reset the
stall counter (content grew), or increment it, possibly make the
escalated at-bottom attempt (a second, longer `waitForNewElements` that
on success resets the stall counter), and apply the two break checks.
Yields either the final stats (a `break`) or the next state. -/
def autoScrollCycle (page : PageSim) (o : ScrollOpts) (s : ScrollState) :
    ScrollStats ⊕ ScrollState :=
  let c1 := page.counts s.cIdx
  let atB := page.atBottom s.bIdx
  if s.previousItemCount < c1 then
    if 0 < o.minItems ∧ o.minItems ≤ c1 then
      Sum.inl (finishStats page
        { s with stallCount := 0, cIdx := s.cIdx + 1 }
        ScrollExitReason.minItemsReached)
    else
      Sum.inr
        { scrollCount := s.scrollCount + 1
          stallCount := 0
          previousItemCount := c1
          cIdx := s.cIdx + 1
          bIdx := s.bIdx + 1 }
  else
    let stall1 := s.stallCount + 1
    if atB ∧ 2 ≤ stall1 then
      let c2 := page.counts (s.cIdx + 1)
      if s.previousItemCount < c2 then
        stallTail page o s 0 c2 (s.cIdx + 2)
      else
        stallTail page o s stall1 c1 (s.cIdx + 2)
    else
      stallTail page o s stall1 c1 (s.cIdx + 1)

/-- The scroll loop. `fuel` is the number of iterations the
`while (scrollCount < maxScrolls)` condition still admits
(`maxScrolls - scrollCount`); when it reaches zero the loop exits
normally. -/
def autoScrollLoop (page : PageSim) (o : ScrollOpts) :
    Nat → ScrollState → ScrollStats
  | 0, s => finishStats page s ScrollExitReason.maxScrollsReached
  | fuel + 1, s =>
    match autoScrollCycle page o s with
    | Sum.inl stats => stats
    | Sum.inr s' => autoScrollLoop page o fuel s'

/-- Models `autoScroll(page, options)`: baseline count query, then the loop. -/
def autoScroll (page : PageSim) (o : ScrollOpts) : ScrollStats :=
  autoScrollLoop page o o.maxScrolls
    { scrollCount := 0
      stallCount := 0
      previousItemCount := page.counts 0
      cIdx := 1
      bIdx := 0 }

/-- Renders the spec's `stalledAtEnd` output flag on the code's stats:
the run ended because the consecutive-stall ceiling was reached. -/
def stalledAtEnd (st : ScrollStats) : Bool :=
  match st.reason with
  | ScrollExitReason.maxStall => true
  | _ => false

/-! ### enqueueScrapeJob (src/src/queue/producer.js) -/

/-- The fields `enqueueScrapeJob` destructures from its `data` argument. -/
structure EnqueueData where
  keyword : Option String := none
  url : Option String := none
  maxPages : Option Nat := none
deriving DecidableEq, Repr

/-- The job options `enqueueScrapeJob` reads (`priority`, `delay`). -/
structure EnqueueOptions where
  priority : Option Nat := none
  delay : Option Nat := none
deriving DecidableEq, Repr

/-- JS truthiness of an optional string: absent, null and `""` are falsy. -/
def jsTruthy : Option String → Bool
  | none => false
  | some v => !v.isEmpty

/-- The `jobData` payload persisted with the job. -/
structure PersistedJobData where
  keyword : Option String
  url : Option String
  maxPages : Nat
  createdAt : Nat
deriving DecidableEq, Repr

/-- A job as stored by the queue backend, with its assigned identifier. -/
structure PersistedJob where
  id : Nat
  name : String
  data : PersistedJobData
  priority : Nat
  delay : Nat
deriving DecidableEq, Repr

/-- Models `enqueueScrapeJob(data, options)` from src/src/queue/producer.js.
The BullMQ backend (`queue.add`) is modelled as a list of persisted
jobs assigning consecutive identifiers. Returns the created job and the
new queue contents, or the thrown validation error. -/
def enqueueScrapeJob (cfgMaxPages : Nat) (data : EnqueueData)
    (opts : EnqueueOptions) (queue : List PersistedJob) (now : Nat) :
    Except String (PersistedJob × List PersistedJob) :=
  if !jsTruthy data.keyword && !jsTruthy data.url then
    Except.error "Either keyword or url must be provided"
  else
    let jobData : PersistedJobData :=
      { keyword := data.keyword
        url := data.url
        maxPages := data.maxPages.getD cfgMaxPages
        createdAt := now }
    let job : PersistedJob :=
      { id := queue.length + 1
        name := "scrape-products"
        data := jobData
        priority := opts.priority.getD 0
        delay := opts.delay.getD 0 }
    Except.ok (job, queue ++ [job])

/-! ### scrapeProducts page loop (src/unnamed/part_008) -/

/-- What one iteration of the `while (currentPage <= maxPages)` body
observes: the page scrapes successfully (yielding some products and a
next-page indication), or throws an error that `isRetryableError`
accepts, or throws a non-retryable error. -/
inductive PageIterOutcome where
  | ok (productsFound : Nat) (hasNext : Bool)
  | errRetryable
  | errFatal
deriving DecidableEq, Repr

/-- The result fields of `scrapeProducts` the claims are about. -/
structure ScrapeRunResult where
  success : Bool
  totalProducts : Nat
  pagesScraped : Nat
deriving DecidableEq, Repr

/-- The page loop of `scrapeProducts`. `env k` is the outcome of the
k-th iteration. A retryable error repeats the same page (`continue`
without incrementing); a non-retryable error moves to the next page;
success appends the products and breaks when there is no next page or
`maxPages` is reached. A retryable error can repeat forever, so the
loop is cut off by `fuel`: `none` means the run has not terminated
within `fuel` iterations. The result is always built with
`success: true`. -/
def scrapeLoop (env : Nat → PageIterOutcome) (maxPages : Nat) :
    Nat → Nat → Nat → Nat → Option ScrapeRunResult
  | 0, _, _, _ => none
  | fuel + 1, currentPage, total, step =>
    if currentPage ≤ maxPages then
      match env step with
      | PageIterOutcome.ok n hasNext =>
        let total' := total + n
        if !hasNext || maxPages ≤ currentPage then
          some { success := true, totalProducts := total', pagesScraped := currentPage }
        else
          scrapeLoop env maxPages fuel (currentPage + 1) total' (step + 1)
      | PageIterOutcome.errRetryable =>
        scrapeLoop env maxPages fuel currentPage total (step + 1)
      | PageIterOutcome.errFatal =>
        scrapeLoop env maxPages fuel (currentPage + 1) total (step + 1)
    else
      some { success := true, totalProducts := total, pagesScraped := currentPage }

/-- Models `scrapeProducts(page, jobData)` restricted to its page loop and
result construction, starting at page 1 with no products collected. -/
def scrapeProducts (env : Nat → PageIterOutcome) (maxPages fuel : Nat) :
    Option ScrapeRunResult :=
  scrapeLoop env maxPages fuel 1 0 0

/-! ### Concrete instances used to exercise the definitions -/

/-- Iterates `autoScrollCycle` a given number of cycles, returning the
state reached, or `none` if the loop broke beforehand. -/
def runCycles (page : PageSim) (o : ScrollOpts) :
    Nat → ScrollState → Option ScrollState
  | 0, s => some s
  | n + 1, s =>
    match autoScrollCycle page o s with
    | Sum.inl _ => none
    | Sum.inr s' => runCycles page o n s'

/-- A simulated page whose matched-item count never increases (constant
7 items) and that never reports being at the bottom. -/
def constPage : PageSim :=
  { counts := fun _ => 7, atBottom := fun _ => false }

/-- A simulated page whose item count increases at cycles 1, 2 and 5
and stays flat at cycles 3 and 4: successive count queries (query 0 is
the baseline) answer 10, 20, 30, 30, 30, 40, 40, ... -/
def progressPage : PageSim :=
  { counts := fun k => [10, 20, 30, 30, 30, 40].getD k 40
    atBottom := fun _ => false }

/-- The scroll options used for the progress trace: ceilings far enough
away that neither is hit within the first five cycles. -/
def progressOpts : ScrollOpts :=
  { maxScrolls := 20, minItems := 0, maxStallCount := 5 }

/-- The initial loop state on `progressPage` (baseline count 10). -/
def progressInit : ScrollState :=
  { scrollCount := 0, stallCount := 0, previousItemCount := 10, cIdx := 1, bIdx := 0 }

/-- An error predicate declaring no error retryable; stands for an
`isRetryable` option a caller might wish to supply. -/
def neverRetryable (_e : String) : Bool := false

/-- A concrete enqueue request carrying only a keyword. -/
def sampleData : EnqueueData := { keyword := some "iphone 15" }

/-- The job `enqueueScrapeJob` builds from `sampleData` on an empty
queue at timestamp 7 with the default page limit 5. -/
def sampleJob : PersistedJob :=
  ⟨1, "scrape-products", ⟨some "iphone 15", none, 5, 7⟩, 0, 0⟩

/-! ## Helper lemmas -/

/-- Trace of a run in which every attempt fails: the last error is
propagated, all attempts are used, and one delay per non-final attempt
is slept, each computed by `computedDelay`. -/
theorem retryLoop_fail_trace (op : Nat → Except E A) (draws : Nat → Nat)
    (o : RetryOptions) (e : Nat → E) (hfail : ∀ k, op k = Except.error (e k)) :
    ∀ remaining attempt,
      retryLoop op draws o attempt remaining =
        ⟨Except.error (e (attempt + remaining)), attempt + remaining,
          (List.range' attempt remaining).map
            (fun k => computedDelay o k (draws k))⟩ := by
  intro remaining
  induction remaining with
  | zero =>
    intro attempt
    simp [retryLoop, hfail attempt]
  | succ remaining ih =>
    intro attempt
    rw [retryLoop, hfail attempt]
    simp only [ih (attempt + 1), List.range'_succ, List.map_cons]
    have h : attempt + 1 + remaining = attempt + (remaining + 1) := by omega
    rw [h]

/-- In every run of the page loop that returns, the result was built
with the literal `success: true`. -/
theorem scrapeLoop_success_true (env : Nat → PageIterOutcome) (maxPages : Nat) :
    ∀ fuel currentPage total step r,
      scrapeLoop env maxPages fuel currentPage total step = some r →
      r.success = true := by
  intro fuel
  induction fuel with
  | zero =>
    intro currentPage total step r h
    simp [scrapeLoop] at h
  | succ fuel ih =>
    intro currentPage total step r h
    rw [scrapeLoop] at h
    split at h
    · split at h
      · split at h
        · injection h with h
          subst h
          rfl
        · exact ih _ _ _ _ h
      · exact ih _ _ _ _ h
      · exact ih _ _ _ _ h
    · injection h with h
      subst h
      rfl

/-- On a page whose count queries all answer `c0`, a cycle starting
with `previousItemCount = c0` either breaks with the stall statistics
(when the incremented stall counter reaches the ceiling) or continues
with the stall counter incremented, provided the minimum-items target
cannot fire. -/
theorem autoScrollCycle_const (page : PageSim) (o : ScrollOpts) (c0 : Nat)
    (hc : ∀ k, page.counts k = c0)
    (hmin : o.minItems = 0 ∨ c0 < o.minItems) (s : ScrollState)
    (hprev : s.previousItemCount = c0) :
    (o.maxStallCount ≤ s.stallCount + 1 ∧
      autoScrollCycle page o s =
        Sum.inl ⟨s.scrollCount, c0, c0, s.stallCount + 1,
          ScrollExitReason.maxStall⟩) ∨
    (s.stallCount + 1 < o.maxStallCount ∧ ∃ ci,
      autoScrollCycle page o s =
        Sum.inr ⟨s.scrollCount + 1, s.stallCount + 1, c0, ci, s.bIdx + 1⟩) := by
  have hmi : ¬(0 < o.minItems ∧ o.minItems ≤ c0) := by
    rcases hmin with h | h <;> omega
  simp only [autoScrollCycle, stallTail, finishStats, hc, hprev]
  rw [if_neg (lt_irrefl c0)]
  by_cases hb : (page.atBottom s.bIdx = true ∧ 2 ≤ s.stallCount + 1)
  · rw [if_pos hb, if_neg (lt_irrefl c0)]
    by_cases hstall : o.maxStallCount ≤ s.stallCount + 1
    · exact Or.inl ⟨hstall, by simp [hstall]⟩
    · refine Or.inr ⟨by omega, s.cIdx + 2, ?_⟩
      rw [if_neg hstall, if_neg hmi]
  · rw [if_neg hb]
    by_cases hstall : o.maxStallCount ≤ s.stallCount + 1
    · exact Or.inl ⟨hstall, by simp [hstall]⟩
    · refine Or.inr ⟨by omega, s.cIdx + 1, ?_⟩
      rw [if_neg hstall, if_neg hmi]

/-- On a constant-count page the loop runs exactly `n` more stall
cycles (where `n` completes the stall ceiling) and breaks with the
stall statistics, provided the fuel (remaining admissible cycles)
suffices and the minimum-items target cannot fire. -/
theorem autoScrollLoop_const (page : PageSim) (o : ScrollOpts) (c0 : Nat)
    (hc : ∀ k, page.counts k = c0)
    (hmin : o.minItems = 0 ∨ c0 < o.minItems) :
    ∀ n fuel s, s.previousItemCount = c0 →
      s.stallCount + n = o.maxStallCount → 1 ≤ n → n ≤ fuel →
      autoScrollLoop page o fuel s =
        ⟨s.scrollCount + (n - 1), c0, c0, o.maxStallCount,
          ScrollExitReason.maxStall⟩ := by
  intro n
  induction n with
  | zero =>
    intro fuel s _ _ h1 _
    omega
  | succ n ih =>
    intro fuel s hprev hstall _ hfuel
    obtain ⟨f, rfl⟩ : ∃ f, fuel = f + 1 := ⟨fuel - 1, by omega⟩
    rw [autoScrollLoop]
    rcases autoScrollCycle_const page o c0 hc hmin s hprev with
      ⟨hle, heq⟩ | ⟨hlt, ci, heq⟩
    · simp only [heq]
      have hn : n = 0 := by omega
      subst hn
      have hs1 : s.stallCount + 1 = o.maxStallCount := by omega
      simp [hs1]
    · simp only [heq]
      have hn : 1 ≤ n := by omega
      have harg : (⟨s.scrollCount + 1, s.stallCount + 1, c0, ci,
          s.bIdx + 1⟩ : ScrollState).stallCount + n = o.maxStallCount := by
        show s.stallCount + 1 + n = o.maxStallCount
        omega
      rw [ih f ⟨s.scrollCount + 1, s.stallCount + 1, c0, ci, s.bIdx + 1⟩ rfl
        harg hn (by omega)]
      have ha : s.scrollCount + 1 + (n - 1) = s.scrollCount + (n + 1 - 1) := by
        omega
      show (⟨s.scrollCount + 1 + (n - 1), c0, c0, o.maxStallCount,
        ScrollExitReason.maxStall⟩ : ScrollStats) = _
      rw [ha]

/-- A cycle that continues increments `scrollCount` by exactly one. -/
theorem autoScrollCycle_inr_scrollCount (page : PageSim) (o : ScrollOpts)
    (s s' : ScrollState) (h : autoScrollCycle page o s = Sum.inr s') :
    s'.scrollCount = s.scrollCount + 1 := by
  simp only [autoScrollCycle, stallTail, finishStats] at h
  split_ifs at h <;>
    first
      | exact Sum.noConfusion h
      | (injection h with h; subst h; rfl)

/-- A cycle that breaks reports a reason consistent with its guard:
a `maxStall` break has a stall count at or above the ceiling, a
`minItemsReached` break needs a positive target, and no cycle break
reports the loop-condition reason. -/
theorem autoScrollCycle_inl_char (page : PageSim) (o : ScrollOpts)
    (s : ScrollState) (stats : ScrollStats)
    (h : autoScrollCycle page o s = Sum.inl stats) :
    (stats.reason = ScrollExitReason.maxStall →
      o.maxStallCount ≤ stats.stallsEncountered) ∧
    (stats.reason = ScrollExitReason.minItemsReached → 0 < o.minItems) ∧
    stats.reason ≠ ScrollExitReason.maxScrollsReached := by
  simp only [autoScrollCycle, stallTail, finishStats] at h
  split_ifs at h <;>
    first
      | exact Sum.noConfusion h
      | (injection h with h; subst h; refine ⟨?_, ?_, ?_⟩ <;> simp_all)

/-- Exit-reason characterisation of the loop, under the loop invariant
relating the fuel to `scrollCount`. -/
theorem autoScrollLoop_reason (page : PageSim) (o : ScrollOpts) :
    ∀ fuel s, s.scrollCount + fuel = o.maxScrolls →
      ((autoScrollLoop page o fuel s).reason = ScrollExitReason.maxStall →
        o.maxStallCount ≤ (autoScrollLoop page o fuel s).stallsEncountered) ∧
      ((autoScrollLoop page o fuel s).reason =
          ScrollExitReason.maxScrollsReached →
        (autoScrollLoop page o fuel s).scrollCount = o.maxScrolls) ∧
      ((autoScrollLoop page o fuel s).reason =
          ScrollExitReason.minItemsReached →
        0 < o.minItems) := by
  intro fuel
  induction fuel with
  | zero =>
    intro s hs
    rw [autoScrollLoop]
    refine ⟨by simp [finishStats], ?_, by simp [finishStats]⟩
    intro _
    simp only [finishStats]
    omega
  | succ fuel ih =>
    intro s hs
    rw [autoScrollLoop]
    cases hcy : autoScrollCycle page o s with
    | inl stats =>
      have hch := autoScrollCycle_inl_char page o s stats hcy
      exact ⟨hch.1, fun hr => absurd hr hch.2.2, hch.2.1⟩
    | inr s' =>
      have hsc := autoScrollCycle_inr_scrollCount page o s s' hcy
      exact ih s' (by omega)

/-! ## Claim theorems -/

/-- C1: for every task `T` and session state, after `queueTask(T, data)`
resolves or rejects, the session's transient state (cookies, local and
session storage) has been cleared by the `finally` block, whether `T`
returned normally or threw, and `queueTask` yields `T`'s result or
propagates `T`'s error after that cleanup (with the active-page counter
restored). -/
theorem queueTask_clears_session_state {E A : Type}
    (task : SessionState → Except E A × SessionState) (s : SessionState)
    (c : Nat) :
    (queueTask task s c).2.1.cookies = [] ∧
    (queueTask task s c).2.1.localStorage = [] ∧
    (queueTask task s c).2.1.sessionStorage = [] ∧
    (queueTask task s c).1 = (task s).1 ∧
    (queueTask task s c).2.2 = c := by
  unfold queueTask clearSessionState
  cases h : (task s).1 <;> simp [h]

/-- C4: for `factor = 2`, `initialDelay = 1000`, `maxDelay = 30000`,
the base delays an all-failing run actually sleeps are
1000, 2000, 4000, 8000, 16000, 30000 for attempts 1..6 (jitter off),
and with jitter on the slept delay is at least the base delay and
exceeds it by at most 30% of the base (`3 * d / 10`, the exact floored
value of `0.3 * d`; it equals `0.3 * d` whenever `d` is a multiple of
10, as all capped schedule values are). -/
theorem retryWithBackoff_delay_schedule :
    (∀ (E A : Type) (op : Nat → Except E A) (draws : Nat → Nat) (e : Nat → E),
      (∀ k, op k = Except.error (e k)) →
      (retryWithBackoff op draws
          { maxAttempts := 7, jitter := false }).delays =
        [1000, 2000, 4000, 8000, 16000, 30000]) ∧
    (∀ (o : RetryOptions) (attempt r : Nat), o.jitter = true →
      baseDelay o attempt ≤ computedDelay o attempt r ∧
      computedDelay o attempt r ≤
        baseDelay o attempt + 3 * baseDelay o attempt / 10) := by
  constructor
  · intro E A op draws e hfail
    unfold retryWithBackoff
    rw [retryLoop_fail_trace op draws _ e hfail]
    have hr : List.range' 1 ((7 : Nat) - 1) = [1, 2, 3, 4, 5, 6] := rfl
    simp only [hr, List.map_cons, List.map_nil]
    norm_num [computedDelay, baseDelay]
  · intro o attempt r hj
    unfold computedDelay jitterCap randomInt
    rw [hj]
    simp only [if_true]
    constructor
    · omega
    · have : r % (3 * baseDelay o attempt / 10 - 0 + 1) ≤
          3 * baseDelay o attempt / 10 := by
        have := Nat.mod_lt r
          (y := 3 * baseDelay o attempt / 10 - 0 + 1) (by omega)
        omega
      omega

/-- C4 witness: the all-failing-run schedule at a concrete operation. -/
theorem retryWithBackoff_delay_schedule_witness :
    (retryWithBackoff (fun _ => (Except.error "boom" : Except String Nat))
        (fun _ => 0) { maxAttempts := 7, jitter := false }).delays =
      [1000, 2000, 4000, 8000, 16000, 30000] :=
  retryWithBackoff_delay_schedule.1 String Nat _ _ (fun _ => "boom")
    (fun _ => rfl)

/-- C5: a job failure classified BANNED with `attemptsMade >= 1`
(i.e. the second or later failed attempt) makes `processJob` throw an
`UnrecoverableError`, terminating the job as non-retryable, regardless
of the configured attempt ceiling (which the decision never reads). -/
theorem processJob_banned_short_circuit (R : Type) (maxAttempts : Nat)
    (attemptsMade : Nat) (data : JobDataRec) (msg : String) (now : Nat)
    (hban : classifyError msg = ErrorType.banned) (h2 : 1 ≤ attemptsMade)
    (_hmax : 2 < maxAttempts) :
    processJob R false attemptsMade data (Except.error msg) now =
      ProcessOutcome.failedUnrecoverable msg
        { data with
          lastError := some ⟨ErrorType.banned, msg, attemptsMade + 1, now⟩ } := by
  simp [processJob, hban, h2]

/-- C5 witness: a second BANNED failure (attempt 2 of a 5-attempt
policy) at a concrete job. -/
theorem processJob_banned_short_circuit_witness :
    processJob Nat false 1
        ⟨some "iphone 15", none, 5, none⟩
        (Except.error "403 blocked") 99 =
      ProcessOutcome.failedUnrecoverable "403 blocked"
        ⟨some "iphone 15", none, 5,
          some ⟨ErrorType.banned, "403 blocked", 2, 99⟩⟩ :=
  processJob_banned_short_circuit Nat 5 1 _ _ 99 (by decide) (by decide)
    (by decide)

/-- C6: `stopWorker` is idempotent under overlapping invocation: a call
made while a shutdown is in flight returns the very same in-flight
promise and changes nothing, and two back-to-back calls on a running
worker return the same promise while starting exactly one shutdown
sequence; both callers hold the one promise, which resolves exactly
when that single sequence (`completeShutdown`) finishes. -/
theorem stopWorker_idempotent :
    (∀ (st : WorkerModuleState) (p : Nat), st.shutdownPromise = some p →
      stopWorker st = (some p, st)) ∧
    (∀ st : WorkerModuleState, st.workerRunning = true →
      st.shutdownPromise = none →
      (stopWorker st).1 = some st.seqStarted ∧
      stopWorker (stopWorker st).2 = ((stopWorker st).1, (stopWorker st).2) ∧
      (stopWorker st).2.seqStarted = st.seqStarted + 1) := by
  constructor
  · intro st p h
    simp [stopWorker, h]
  · intro st h1 h2
    simp [stopWorker, h1, h2]

/-- C6 witness: overlapping stop calls on a concrete running worker. -/
theorem stopWorker_idempotent_witness :
    stopWorker ⟨true, true, some 0, 1⟩ = (some 0, ⟨true, true, some 0, 1⟩) ∧
    (stopWorker ⟨true, false, none, 0⟩).1 = some 0 ∧
    stopWorker (stopWorker ⟨true, false, none, 0⟩).2 =
      ((stopWorker ⟨true, false, none, 0⟩).1,
        (stopWorker ⟨true, false, none, 0⟩).2) ∧
    (stopWorker ⟨true, false, none, 0⟩).2.seqStarted = 1 :=
  ⟨stopWorker_idempotent.1 ⟨true, true, some 0, 1⟩ 0 rfl,
    stopWorker_idempotent.2 ⟨true, false, none, 0⟩ rfl rfl⟩

/-- C7 counterexample: `retryWithBackoff` accepts no `isRetryable`
option. With an operation that always throws an error that a
never-retryable predicate rejects, the wrapper still performs all
3 default attempts and sleeps 2 backoff delays instead of propagating
immediately after the first attempt. -/
theorem retryWithBackoff_no_isRetryable_counterexample :
    neverRetryable "boom" = false ∧
    ¬((retryWithBackoff (fun _ => (Except.error "boom" : Except String Nat))
          (fun _ => 0) {}).attemptsPerformed = 1 ∧
      (retryWithBackoff (fun _ => (Except.error "boom" : Except String Nat))
          (fun _ => 0) {}).delays = []) ∧
    (retryWithBackoff (fun _ => (Except.error "boom" : Except String Nat))
        (fun _ => 0) {}).attemptsPerformed = 3 ∧
    (retryWithBackoff (fun _ => (Except.error "boom" : Except String Nat))
        (fun _ => 0) {}).delays.length = 2 := by
  decide

/-- C7 (amended): the retry wrapper consults no retryability predicate:
for every operation whose attempts all fail, it performs exactly
`maxAttempts` attempts, sleeping `maxAttempts - 1` backoff delays, and
then propagates the last error. -/
theorem retryWithBackoff_retries_all_errors (E A : Type)
    (op : Nat → Except E A) (draws : Nat → Nat) (o : RetryOptions)
    (e : Nat → E) (h1 : 1 ≤ o.maxAttempts)
    (hfail : ∀ k, op k = Except.error (e k)) :
    (retryWithBackoff op draws o).result = Except.error (e o.maxAttempts) ∧
    (retryWithBackoff op draws o).attemptsPerformed = o.maxAttempts ∧
    (retryWithBackoff op draws o).delays.length = o.maxAttempts - 1 := by
  unfold retryWithBackoff
  rw [retryLoop_fail_trace op draws o e hfail]
  have h : 1 + (o.maxAttempts - 1) = o.maxAttempts := by omega
  simp [h]

/-- C7 amended witness: all-failing operation at the default options. -/
theorem retryWithBackoff_retries_all_errors_witness :
    (retryWithBackoff (fun _ => (Except.error "boom" : Except String Nat))
        (fun _ => 0) {}).result = Except.error "boom" ∧
    (retryWithBackoff (fun _ => (Except.error "boom" : Except String Nat))
        (fun _ => 0) {}).attemptsPerformed = 3 ∧
    (retryWithBackoff (fun _ => (Except.error "boom" : Except String Nat))
        (fun _ => 0) {}).delays.length = 2 :=
  retryWithBackoff_retries_all_errors String Nat _ _ {} (fun _ => "boom")
    (by decide) (fun _ => rfl)

/-- C8: for every attempt count and positive base delay, the
class-specific delays are ordered pointwise
BANNED ≥ RATE_LIMITED ≥ TIMEOUT = NETWORK, with the RATE_LIMITED delay
capped at 5 minutes (300000 ms) and the BANNED delay at 10 minutes
(600000 ms). -/
theorem getRetryDelay_class_ordering (n base : Nat) (_hb : 0 < base) :
    getRetryDelay ErrorType.rateLimited n base ≤
      getRetryDelay ErrorType.banned n base ∧
    getRetryDelay ErrorType.timeout n base ≤
      getRetryDelay ErrorType.rateLimited n base ∧
    getRetryDelay ErrorType.timeout n base =
      getRetryDelay ErrorType.network n base ∧
    getRetryDelay ErrorType.rateLimited n base ≤ 300000 ∧
    getRetryDelay ErrorType.banned n base ≤ 600000 := by
  unfold getRetryDelay
  refine ⟨?_, ?_, rfl, min_le_right _ _, min_le_right _ _⟩
  · exact min_le_min
      (Nat.mul_le_mul_left base (Nat.pow_le_pow_left (by norm_num) n))
      (by norm_num)
  · exact min_le_min
      (Nat.mul_le_mul_left base (Nat.pow_le_pow_left (by norm_num) n))
      (by norm_num)

/-- C8 witness: the ordering at `n = 3` and the configured base delay. -/
theorem getRetryDelay_class_ordering_witness :
    getRetryDelay ErrorType.rateLimited 3 configBackoffDelay ≤
      getRetryDelay ErrorType.banned 3 configBackoffDelay ∧
    getRetryDelay ErrorType.timeout 3 configBackoffDelay ≤
      getRetryDelay ErrorType.rateLimited 3 configBackoffDelay ∧
    getRetryDelay ErrorType.timeout 3 configBackoffDelay =
      getRetryDelay ErrorType.network 3 configBackoffDelay ∧
    getRetryDelay ErrorType.rateLimited 3 configBackoffDelay ≤ 300000 ∧
    getRetryDelay ErrorType.banned 3 configBackoffDelay ≤ 600000 :=
  getRetryDelay_class_ordering 3 configBackoffDelay (by decide)

/-- C9: `enqueueScrapeJob(data, options)` throws exactly when `data`
carries neither a (JS-truthy) keyword nor a url; otherwise it succeeds,
assigning the configured default page limit when `maxPages` is absent,
the given priority and delay (defaulting to 0), the creation timestamp,
and persists the job with a fresh identifier, returning it. -/
theorem enqueueScrapeJob_validation :
    (∀ (cfg : Nat) (data : EnqueueData) (opts : EnqueueOptions)
        (queue : List PersistedJob) (now : Nat),
      enqueueScrapeJob cfg data opts queue now =
          Except.error "Either keyword or url must be provided" ↔
        (jsTruthy data.keyword = false ∧ jsTruthy data.url = false)) ∧
    (∀ (cfg : Nat) (data : EnqueueData) (opts : EnqueueOptions)
        (queue : List PersistedJob) (now : Nat) (job : PersistedJob)
        (queue' : List PersistedJob),
      enqueueScrapeJob cfg data opts queue now = Except.ok (job, queue') →
      job.data.maxPages = data.maxPages.getD cfg ∧
      job.priority = opts.priority.getD 0 ∧
      job.delay = opts.delay.getD 0 ∧
      job.data.keyword = data.keyword ∧
      job.data.url = data.url ∧
      job.data.createdAt = now ∧
      queue' = queue ++ [job] ∧
      job.id = queue.length + 1) := by
  constructor
  · intro cfg data opts queue now
    unfold enqueueScrapeJob
    by_cases h : (!jsTruthy data.keyword && !jsTruthy data.url) = true
    · rw [if_pos h]
      simp only [Bool.and_eq_true, Bool.not_eq_true'] at h
      exact iff_of_true rfl h
    · rw [if_neg h]
      simp only [Bool.and_eq_true, Bool.not_eq_true'] at h
      exact iff_of_false (by simp) h
  · intro cfg data opts queue now job queue' h
    unfold enqueueScrapeJob at h
    by_cases hc : (!jsTruthy data.keyword && !jsTruthy data.url) = true
    · rw [if_pos hc] at h
      cases h
    · rw [if_neg hc] at h
      injection h with h
      rw [Prod.ext_iff] at h
      obtain ⟨h1, h2⟩ := h
      subst h1
      subst h2
      refine ⟨rfl, rfl, rfl, rfl, rfl, rfl, rfl, rfl⟩

/-- C9 witness: the validation contract at a keyword-only request on an
empty queue. -/
theorem enqueueScrapeJob_validation_witness :
    (enqueueScrapeJob 5 sampleData {} [] 7 =
        Except.error "Either keyword or url must be provided" ↔
      (jsTruthy sampleData.keyword = false ∧ jsTruthy sampleData.url = false)) ∧
    (sampleJob.data.maxPages = 5 ∧
      sampleJob.priority = 0 ∧
      sampleJob.delay = 0 ∧
      sampleJob.data.keyword = some "iphone 15" ∧
      sampleJob.data.url = none ∧
      sampleJob.data.createdAt = 7 ∧
      [sampleJob] = [] ++ [sampleJob] ∧
      sampleJob.id = ([] : List PersistedJob).length + 1) :=
  ⟨enqueueScrapeJob_validation.1 5 sampleData {} [] 7,
    enqueueScrapeJob_validation.2 5 sampleData {} [] 7 sampleJob [sampleJob]
      rfl⟩

/-- C10: whenever the page loop of `scrapeProducts` returns a result,
that result's `success` field is `true` — including a run in which every
page iteration threw a non-retryable error and zero products were
collected (maxPages 2: pages 1, 2 and the final loop check each fail or
exit, yielding `success: true`, `totalProducts: 0`). -/
theorem scrapeProducts_success_always_true :
    (∀ (env : Nat → PageIterOutcome) (maxPages fuel : Nat)
        (r : ScrapeRunResult),
      scrapeProducts env maxPages fuel = some r → r.success = true) ∧
    scrapeProducts (fun _ => PageIterOutcome.errFatal) 2 10 =
      some { success := true, totalProducts := 0, pagesScraped := 3 } := by
  constructor
  · intro env maxPages fuel r h
    exact scrapeLoop_success_true env maxPages fuel 1 0 0 r h
  · decide

/-- C10 witness: the general statement applied to the all-failing run. -/
theorem scrapeProducts_success_always_true_witness :
    ({ success := true, totalProducts := 0, pagesScraped := 3 } :
      ScrapeRunResult).success = true :=
  scrapeProducts_success_always_true.1 (fun _ => PageIterOutcome.errFatal)
    2 10 _ (by decide)

/-- C2: on a page whose matched-item count never increases (all count
queries answer `c0`, any at-bottom behaviour), `autoScroll` terminates
by the stall ceiling: it breaks once the consecutive-stall counter
reaches `maxStallCount` (after `maxStallCount` cycles, so with
`scrollCount = maxStallCount - 1 < maxScrolls`), returning — not
throwing (the model's return type is total) — the final item count and
cycle statistics, with the stall ceiling as the recorded exit reason
(the code's rendering of `stalledAtEnd: true`). -/
theorem autoScroll_stall_termination (page : PageSim) (o : ScrollOpts)
    (c0 : Nat) (hc : ∀ k, page.counts k = c0)
    (h1 : 1 ≤ o.maxStallCount) (h2 : o.maxStallCount ≤ o.maxScrolls)
    (hmin : o.minItems = 0 ∨ c0 < o.minItems) :
    autoScroll page o =
      ⟨o.maxStallCount - 1, c0, c0, o.maxStallCount,
        ScrollExitReason.maxStall⟩ ∧
    (autoScroll page o).scrollCount < o.maxScrolls ∧
    (autoScroll page o).stallsEncountered = o.maxStallCount ∧
    stalledAtEnd (autoScroll page o) = true := by
  have h := autoScrollLoop_const page o c0 hc hmin o.maxStallCount
    o.maxScrolls
    { scrollCount := 0
      stallCount := 0
      previousItemCount := page.counts 0
      cIdx := 1
      bIdx := 0 } (hc 0)
    (show (0 : Nat) + o.maxStallCount = o.maxStallCount by omega) h1 h2
  have hA : autoScroll page o =
      ⟨0 + (o.maxStallCount - 1), c0, c0, o.maxStallCount,
        ScrollExitReason.maxStall⟩ := by
    unfold autoScroll
    exact h
  rw [hA]
  refine ⟨by simp, by simp [stalledAtEnd]; omega, rfl, rfl⟩

/-- C2 witness: a constant-count page with `maxScrolls = 10`,
`maxStallCount = 3`. -/
theorem autoScroll_stall_termination_witness :
    autoScroll constPage ⟨10, 0, 3⟩ =
      ⟨2, 7, 7, 3, ScrollExitReason.maxStall⟩ ∧
    (autoScroll constPage ⟨10, 0, 3⟩).scrollCount < 10 ∧
    (autoScroll constPage ⟨10, 0, 3⟩).stallsEncountered = 3 ∧
    stalledAtEnd (autoScroll constPage ⟨10, 0, 3⟩) = true :=
  autoScroll_stall_termination constPage ⟨10, 0, 3⟩ 7 (fun _ => rfl)
    (by decide) (by decide) (Or.inl rfl)

/-- C3: the consecutive-stall counter resets to zero in any cycle that
observes an increased item count (first conjunct); on the simulated
page with increases at cycles 1, 2 and 5 and none at cycles 3 and 4,
the counter reads 1 after cycle 3, 2 after cycle 4 and 0 immediately
after cycle 5 (second conjunct); and a run exits with a reason matching
whichever ceiling fired: a stall exit carries a stall count at the
ceiling, a loop-condition exit carries `scrollCount = maxScrolls`, and
a minimum-items exit requires a positive target (third conjunct). -/
theorem autoScroll_stall_reset :
    (∀ (page : PageSim) (o : ScrollOpts) (s s' : ScrollState),
      s.previousItemCount < page.counts s.cIdx →
      autoScrollCycle page o s = Sum.inr s' → s'.stallCount = 0) ∧
    ((runCycles progressPage progressOpts 3 progressInit).map
        (fun s => s.stallCount) = some 1 ∧
      (runCycles progressPage progressOpts 4 progressInit).map
        (fun s => s.stallCount) = some 2 ∧
      (runCycles progressPage progressOpts 5 progressInit).map
        (fun s => s.stallCount) = some 0) ∧
    (∀ (page : PageSim) (o : ScrollOpts),
      ((autoScroll page o).reason = ScrollExitReason.maxStall →
        o.maxStallCount ≤ (autoScroll page o).stallsEncountered) ∧
      ((autoScroll page o).reason = ScrollExitReason.maxScrollsReached →
        (autoScroll page o).scrollCount = o.maxScrolls) ∧
      ((autoScroll page o).reason = ScrollExitReason.minItemsReached →
        0 < o.minItems)) := by
  refine ⟨?_, by decide, ?_⟩
  · intro page o s s' hlt hcy
    simp only [autoScrollCycle] at hcy
    rw [if_pos hlt] at hcy
    split at hcy
    · cases hcy
    · injection hcy with hcy
      subst hcy
      rfl
  · intro page o
    have h := autoScrollLoop_reason page o o.maxScrolls
      { scrollCount := 0
        stallCount := 0
        previousItemCount := page.counts 0
        cIdx := 1
        bIdx := 0 } (by simp)
    unfold autoScroll
    exact h

/-- C3 witness: the reset applied to the first cycle of the progress
trace (count rises 10 to 20, next state's stall counter is 0), and the
exit characterisation applied to the constant page's stall exit. -/
theorem autoScroll_stall_reset_witness :
    (⟨1, 0, 20, 2, 1⟩ : ScrollState).stallCount = 0 ∧
    3 ≤ (autoScroll constPage ⟨10, 0, 3⟩).stallsEncountered :=
  ⟨autoScroll_stall_reset.1 progressPage progressOpts progressInit
      ⟨1, 0, 20, 2, 1⟩ (by decide) (by decide),
    (autoScroll_stall_reset.2.2 constPage ⟨10, 0, 3⟩).1 (by decide)⟩

end ScrapeEngine
